import Mathlib

/-!
Shallow embedding of the monthly climate pipeline in `src/map.py`
(NEX-GDDP-CMIP6 Future Climate Projections Explorer).

Machine reals (Python floats) are modelled as exact rationals `ℚ`; the
remote Earth Engine service is modelled by the list of per-month fetch
results the `.getInfo()` calls return (each one either raising, modelled
as `Except.error`, or returning the three reduced band values, each
possibly absent).  An `EEImage` carries the band values sampled at the
query point together with the properties `aggregate_monthly` sets.
-/

namespace PredictedSam

/-! ## Risk labels (map.py lines 166-174) -/

inductive Risk where
  | Low
  | Moderate
  | High
deriving DecidableEq, Repr

/-- The `flood_risk` lambda of map.py line 167-169:
`'High' if x > 100 else 'Moderate' if x > 50 else 'Low'`. -/
def flood_risk (x : ℚ) : Risk :=
  if x > 100 then .High else if x > 50 then .Moderate else .Low

/-- The `drought_risk` lambda of map.py lines 170-174. -/
def drought_risk (p t : ℚ) : Risk :=
  if p < 30 ∧ t > 30 then .High
  else if p < 50 ∧ t > 25 then .Moderate
  else .Low

/-! ## Records -/

/-- One element of `monthly_data_list` (map.py lines 153-158). -/
structure MonthlyRec where
  date : String
  precipitation_mm : ℚ
  min_temperature_c : ℚ
  max_temperature_c : ℚ
deriving DecidableEq, Repr

/-- A dataframe row after the risk columns are added (map.py lines 166-174). -/
structure MonthlyRow where
  date : String
  precipitation_mm : ℚ
  min_temperature_c : ℚ
  max_temperature_c : ℚ
  flood_risk : Risk
  drought_risk : Risk
deriving DecidableEq, Repr

/-- Adding the two risk columns to a record (map.py lines 167-174). -/
def addRisks (r : MonthlyRec) : MonthlyRow :=
  { date := r.date
    precipitation_mm := r.precipitation_mm
    min_temperature_c := r.min_temperature_c
    max_temperature_c := r.max_temperature_c
    flood_risk := flood_risk r.precipitation_mm
    drought_risk := drought_risk r.precipitation_mm r.max_temperature_c }

/-! ## Calendar dates (for the month-end computation, map.py lines 124-130) -/

structure CDate where
  year : Nat
  month : Nat
  day : Nat
deriving DecidableEq, Repr

/-- Gregorian leap-year rule used by Python `datetime`. -/
def isLeap (y : Nat) : Bool := y % 4 == 0 && (y % 100 != 0 || y % 400 == 0)

def daysInMonth (y m : Nat) : Nat :=
  if m = 2 then (if isLeap y then 29 else 28)
  else if m = 4 ∨ m = 6 ∨ m = 9 ∨ m = 11 then 30 else 31

def nextDay (d : CDate) : CDate :=
  if d.day < daysInMonth d.year d.month then ⟨d.year, d.month, d.day + 1⟩
  else if d.month < 12 then ⟨d.year, d.month + 1, 1⟩
  else ⟨d.year + 1, 1, 1⟩

def prevDay (d : CDate) : CDate :=
  if 1 < d.day then ⟨d.year, d.month, d.day - 1⟩
  else if 1 < d.month then ⟨d.year, d.month - 1, daysInMonth d.year (d.month - 1)⟩
  else ⟨d.year - 1, 12, 31⟩

/-- `date + datetime.timedelta(days=n)`. -/
def addDays : Nat → CDate → CDate
  | 0, d => d
  | n + 1, d => addDays n (nextDay d)

/-- map.py line 125:
`month_end = (month_start + timedelta(days=31)).replace(day=1) - timedelta(days=1)`
where `month_start` is the first of the month parsed from `'YYYY-MM'`. -/
def monthEndDate (y m : Nat) : CDate :=
  let monthStart : CDate := ⟨y, m, 1⟩
  let t := addDays 31 monthStart
  prevDay ⟨t.year, t.month, 1⟩

/-- `datetime.date` comparison (lexicographic on year, month, day). -/
def dateLt (a b : CDate) : Prop :=
  a.year < b.year ∨ (a.year = b.year ∧
    (a.month < b.month ∨ (a.month = b.month ∧ a.day < b.day)))

instance instDecDateLt (a b : CDate) : Decidable (dateLt a b) := by
  unfold dateLt; infer_instance

/-! ## The per-month fetch loop (map.py lines 123-158)

Each iteration of `for year_month in monthly_collection.getInfo()` performs a
remote `.getInfo()` that either raises (modelled as `Except.error`) or returns
the dictionary values `pr_sum`, `tasmin_mean`, `tasmax_mean`, each possibly
`None`.  There is no try/except inside the loop: an exception escapes to the
outer handler at map.py lines 242-244. -/

abbrev FetchRes := Except String (Option ℚ × Option ℚ × Option ℚ)

/-- Lines 144-158: the `all(v is not None ...)` guard and the unit
conversions `precip_mm = pr_sum * 86400`, `t_c = t_k - 273.15`. -/
def recOf (ym : String) : Option ℚ → Option ℚ → Option ℚ → Option MonthlyRec
  | some pr, some tn, some tx => some ⟨ym, pr * 86400, tn - 273.15, tx - 273.15⟩
  | _, _, _ => none

def recOfPair : String × FetchRes → Option MonthlyRec
  | (ym, .ok (a, b, c)) => recOf ym a b c
  | (_, .error _) => none

/-- The loop building `monthly_data_list`.  A raised exception anywhere in the
loop aborts it and escapes (`Except.error`), discarding the list built so far,
exactly as the outer `except` of map.py lines 242-244 receives it. -/
def processMonths : List (String × FetchRes) → Except String (List MonthlyRec)
  | [] => .ok []
  | (_, .error e) :: _ => .error e
  | (ym, .ok (a, b, c)) :: rest =>
    match processMonths rest with
    | .error e => .error e
    | .ok rs =>
      match recOf ym a b c with
      | some r => .ok (r :: rs)
      | none => .ok rs

/-- The first exception raised during the loop, if any. -/
def firstError : List (String × FetchRes) → Option String
  | [] => none
  | (_, .error e) :: _ => some e
  | _ :: rest => firstError rest

/-! ## CSV serialization (map.py lines 227-231)

`df.reset_index().to_csv(output, index=False)` writes the fixed header, one
comma-separated line per row, each line terminated by a newline.  Numeric
cells are written with an injective plain-text rendering (standing for Python
float repr, which is likewise injective and contains no separator
characters); the datetime index cell is rendered as the first-of-month ISO
date, which is how pandas formats a midnight-only datetime column. -/

def digitToChar (d : Nat) : Char := Char.ofNat (48 + d)

def charToDigit (c : Char) : Nat := c.toNat - 48

def natDigitsAux : Nat → Nat → List Char
  | _, 0 => []
  | 0, _ + 1 => []
  | f + 1, n + 1 => digitToChar ((n + 1) % 10) :: natDigitsAux f ((n + 1) / 10)

def renderNat (n : Nat) : List Char :=
  if n = 0 then ['0'] else (natDigitsAux n n).reverse

def parseNatChars (cs : List Char) : Nat :=
  cs.foldl (fun acc c => acc * 10 + charToDigit c) 0

def renderInt (i : Int) : List Char :=
  if i < 0 then '-' :: renderNat i.natAbs else renderNat i.natAbs

def parseIntChars (cs : List Char) : Int :=
  match cs with
  | [] => 0
  | c :: rest => if c = '-' then -(parseNatChars rest : Int) else (parseNatChars cs : Int)

/-- Split a character list at every occurrence of `sep` (CSV field/line split). -/
def splitCells (sep : Char) : List Char → List (List Char)
  | [] => [[]]
  | c :: cs =>
    if c = sep then [] :: splitCells sep cs
    else
      match splitCells sep cs with
      | [] => [[c]]
      | a :: as => (c :: a) :: as

def joinCells (sep : Char) : List (List Char) → List Char
  | [] => []
  | [p] => p
  | p :: q :: ps => p ++ sep :: joinCells sep (q :: ps)

def renderQ (q : ℚ) : List Char := renderInt q.num ++ '/' :: renderNat q.den

def parseQChars (cs : List Char) : Option ℚ :=
  match splitCells '/' cs with
  | [ns, ds] => some (mkRat (parseIntChars ns) (parseNatChars ds))
  | _ => none

def Risk.str : Risk → String
  | .Low => "Low"
  | .Moderate => "Moderate"
  | .High => "High"

def parseRisk (cs : List Char) : Option Risk :=
  if cs = "Low".data then some .Low
  else if cs = "Moderate".data then some .Moderate
  else if cs = "High".data then some .High
  else none

/-- The `date` cell: pandas renders the midnight datetime index entry for
year-month `ym` as the ISO date `ym ++ "-01"`. -/
def dateCell (ym : String) : List Char := ym.data ++ ['-', '0', '1']

def parseDateCell (cs : List Char) : Option String :=
  if cs.drop (cs.length - 3) = ['-', '0', '1'] ∧ 3 ≤ cs.length then
    some (String.mk (cs.take (cs.length - 3)))
  else none

def rowCells (r : MonthlyRow) : List (List Char) :=
  [dateCell r.date, renderQ r.precipitation_mm, renderQ r.min_temperature_c,
   renderQ r.max_temperature_c, (Risk.str r.flood_risk).data, (Risk.str r.drought_risk).data]

def headerCells : List Char :=
  "date,precipitation_mm,min_temperature_c,max_temperature_c,flood_risk,drought_risk".data

/-- The CSV text: header line, one line per row, trailing newline. -/
def toCsvChars (rows : List MonthlyRow) : List Char :=
  joinCells '\n' ((headerCells :: rows.map (fun r => joinCells ',' (rowCells r))) ++ [[]])

def toCsvStr (rows : List MonthlyRow) : String := String.mk (toCsvChars rows)

def parseRowChars (cs : List Char) : Option MonthlyRow :=
  match splitCells ',' cs with
  | [d, p, tn, tx, f, dr] =>
    match parseDateCell d, parseQChars p, parseQChars tn, parseQChars tx,
          parseRisk f, parseRisk dr with
    | some d2, some p2, some tn2, some tx2, some f2, some dr2 =>
      some ⟨d2, p2, tn2, tx2, f2, dr2⟩
    | _, _, _, _, _, _ => none
  | _ => none

def parseCsvChars (cs : List Char) : Option (List MonthlyRow) :=
  if (splitCells '\n' cs).getLast? = some [] then
    match (splitCells '\n' cs).dropLast with
    | [] => none
    | h :: rest => if h = headerCells then rest.mapM parseRowChars else none
  else none

def parseCsvStr (s : String) : Option (List MonthlyRow) := parseCsvChars s.data

/-- Year-month strings produced by the pipeline contain no CSV separators. -/
def ymOk (s : String) : Bool := s.data.all (fun c => c != ',' && c != '\n')

/-! ## Outcome of a button click (map.py lines 87-244) -/

inductive Outcome where
  | validationError (msg : String)
  | fetchError (msg : String)
  | noData
  | success (rows : List MonthlyRow) (csv : String)
deriving DecidableEq, Repr

/-- Lines 160-241: build the dataframe, risk columns, charts and CSV when the
list is nonempty, otherwise show the no-data error; the outer handler turns a
raised exception into the fetch-failure message (lines 242-244). -/
def runPipeline (fetches : List (String × FetchRes)) : Outcome :=
  match processMonths fetches with
  | .error e => .fetchError ("Failed to fetch data: " ++ e)
  | .ok [] => .noData
  | .ok (r :: rs) =>
    let rows := (r :: rs).map addRisks
    .success rows (toCsvStr rows)

/-- The rows rendered (dataframe/charts/CSV); empty for the error outcomes. -/
def outputRows : Outcome → List MonthlyRow
  | .success rows _ => rows
  | _ => []

/-- The button handler's validation chain, map.py lines 87-96: each failing
check short-circuits to `st.error` and the remote query of lines 97-244 is
never built. -/
def fetchClimateData (pt : Option (ℚ × ℚ)) (startDate endDate : CDate)
    (fetches : List (String × FetchRes)) : Outcome :=
  if pt.isNone then .validationError "Please click a location on the map."
  else if ¬ dateLt startDate endDate then .validationError "Start date must be before end date."
  else if dateLt startDate ⟨2025, 1, 1⟩ then
    .validationError "Start date must be on or after 2025 for future projections."
  else if dateLt ⟨2100, 12, 31⟩ endDate then .validationError "End date cannot be after 2100."
  else runPipeline fetches

/-! ## The image collection layer (map.py lines 98-142) -/

/-- An Earth Engine image of the filtered collection, with its band values
sampled at the query point and the properties `aggregate_monthly` may set. -/
structure EEImage where
  date : CDate
  pr : ℚ
  tasmin : ℚ
  tasmax : ℚ
  year_month : Option String := none
  precip_sum : Option ℚ := none
  tasmin_mean : Option ℚ := none
  tasmax_mean : Option ℚ := none
deriving DecidableEq, Repr

def padTo (k : Nat) (cs : List Char) : List Char :=
  List.replicate (k - cs.length) '0' ++ cs

/-- `ee.Date.format('YYYY-MM')`: four-digit year, dash, two-digit month. -/
def renderYM (y m : Nat) : String :=
  String.mk (padTo 4 (renderNat y) ++ '-' :: padTo 2 (renderNat m))

/-- `datetime.strptime(year_month, '%Y-%m')`, map.py line 124; a string whose
month is out of range makes `strptime` raise. -/
def parseYM (s : String) : Option (Nat × Nat) :=
  match splitCells '-' s.data with
  | [ys, ms] =>
    let y := parseNatChars ys
    let m := parseNatChars ms
    if 1 ≤ m ∧ m ≤ 12 then some (y, m) else none
  | _ => none

/-- map.py lines 106-117: sets `year_month` and three converted band
properties on the image. -/
def aggregate_monthly (im : EEImage) : EEImage :=
  { im with
    year_month := some (renderYM im.date.year im.date.month)
    precip_sum := some (im.pr * 86400)
    tasmin_mean := some (im.tasmin - 273.15)
    tasmax_mean := some (im.tasmax - 273.15) }

/-- The variant that only sets `year_month` (for the dead-code equivalence). -/
def aggregateYearMonthOnly (im : EEImage) : EEImage :=
  { im with year_month := some (renderYM im.date.year im.date.month) }

/-- `.distinct()` on an aggregate array keeps the first occurrence of each
value, in order. -/
def dedupKeep : List String → List String
  | [] => []
  | x :: xs => x :: (dedupKeep xs).filter (fun s => s != x)

/-- map.py line 120: `dataset.map(f).aggregate_array('year_month').distinct()`. -/
def discoverMonths (f : EEImage → EEImage) (imgs : List EEImage) : List String :=
  dedupKeep ((imgs.map f).filterMap EEImage.year_month)

/-- `filterDate(lo, hi)` membership: `lo ≤ d < hi`. -/
def inMonthRange (lo hi : CDate) (d : CDate) : Bool :=
  !(decide (dateLt d lo)) && decide (dateLt d hi)

/-- map.py lines 124-146: parse the year-month, re-filter the collection to
`[first-of-month, month_end + 1 day)`, reduce with the combined sum+mean
reducer over time, reduce spatially at the point (`Reducer.first`), and read
`pr_sum`, `tasmin_mean`, `tasmax_mean` from the resulting dictionary (absent
when the month's filtered collection is empty). -/
def fetchMonth (imgs : List EEImage) (ym : String) : FetchRes :=
  match parseYM ym with
  | none => .error ("time data " ++ ym ++ " does not match format")
  | some (y, m) =>
    let lo : CDate := ⟨y, m, 1⟩
    let hi := addDays 1 (monthEndDate y m)
    let ms := imgs.filter (fun im => inMonthRange lo hi im.date)
    if ms.length = 0 then .ok (none, none, none)
    else
      .ok (some ((ms.map EEImage.pr).sum),
           some ((ms.map EEImage.tasmin).sum / (ms.length : ℚ)),
           some ((ms.map EEImage.tasmax).sum / (ms.length : ℚ)))

/-- The whole monthly pipeline viewed from the image collection, parameterized
by the function mapped over the collection at line 120. -/
def pipelineFromImages (f : EEImage → EEImage) (imgs : List EEImage) : Outcome :=
  runPipeline ((discoverMonths f imgs).map (fun ym => (ym, fetchMonth imgs ym)))

/-- Chronological order on year-month key strings, via the parsed
(year, month) pair. -/
def ymBefore (a b : String) : Bool :=
  match parseYM a, parseYM b with
  | some (y1, m1), some (y2, m2) => decide (y1 < y2 ∨ (y1 = y2 ∧ m1 < m2))
  | _, _ => false

/-! ## Semantics of the fetch loop -/

/-- The loop either propagates the first raised exception, discarding
everything, or — when no iteration raises — keeps exactly the months whose
three fields are all present, in input order. -/
theorem processMonths_spec (l : List (String × FetchRes)) :
    processMonths l =
      match firstError l with
      | some e => Except.error e
      | none => Except.ok (l.filterMap recOfPair) := by
  induction l with
  | nil => rfl
  | cons p rest ih =>
    obtain ⟨ym, res⟩ := p
    cases res with
    | error e => rfl
    | ok t =>
      obtain ⟨a, b, c⟩ := t
      show (match processMonths rest with
            | .error e => (Except.error e : Except String (List MonthlyRec))
            | .ok rs =>
              match recOf ym a b c with
              | some r => Except.ok (r :: rs)
              | none => Except.ok rs) = _
      rw [ih]
      cases h : firstError rest with
      | some e =>
        simp only [firstError, h]
      | none =>
        cases hr : recOf ym a b c with
        | some r =>
          simp only [firstError, h, List.filterMap_cons, recOfPair, hr]
        | none =>
          simp only [firstError, h, List.filterMap_cons, recOfPair, hr]

theorem recOfPair_date {p : String × FetchRes} {r : MonthlyRec}
    (h : recOfPair p = some r) : r.date = p.1 := by
  obtain ⟨ym, res⟩ := p
  cases res with
  | error e => simp [recOfPair] at h
  | ok t =>
    obtain ⟨a, b, c⟩ := t
    cases a with
    | none => simp [recOfPair, recOf] at h
    | some pa =>
      cases b with
      | none => simp [recOfPair, recOf] at h
      | some tb =>
        cases c with
        | none => simp [recOfPair, recOf] at h
        | some tc =>
          simp only [recOfPair, recOf, Option.some_inj] at h
          subst h
          rfl

theorem outputRows_of_ok {l : List (String × FetchRes)} {rs : List MonthlyRec}
    (h : processMonths l = .ok rs) :
    outputRows (runPipeline l) = rs.map addRisks := by
  unfold runPipeline
  rw [h]
  cases rs with
  | nil => rfl
  | cons r rest => rfl

theorem dates_sublist (l : List (String × FetchRes)) :
    List.Sublist ((l.filterMap recOfPair).map MonthlyRec.date) (l.map Prod.fst) := by
  induction l with
  | nil => simp
  | cons p rest ih =>
    cases hr : recOfPair p with
    | none =>
      rw [List.filterMap_cons, hr, List.map_cons]
      exact ih.cons p.1
    | some r =>
      rw [List.filterMap_cons, hr, List.map_cons, List.map_cons,
        recOfPair_date hr]
      exact ih.cons₂ p.1

theorem keys_inj {l : List (String × FetchRes)} (hnd : (l.map Prod.fst).Nodup)
    {p q : String × FetchRes} (hp : p ∈ l) (hq : q ∈ l) (h : p.1 = q.1) : p = q :=
  List.inj_on_of_nodup_map hnd hp hq h

/-- C3 (counterexample): a batch where the first month's remote fetch raises
and the second month's fetch succeeds with all three fields present.  The
code aborts the whole batch with the outer fetch-failure message and outputs
no records at all — the successfully fetched month 2025-02 is also absent,
contradicting the claimed per-month isolation of fetch exceptions. -/
theorem month_fetch_error_not_isolated_cex :
    runPipeline [("2025-01", Except.error "boom"),
        ("2025-02", Except.ok (some 1, some 280, some 290))] =
      Outcome.fetchError "Failed to fetch data: boom" ∧
    outputRows (runPipeline [("2025-01", Except.error "boom"),
        ("2025-02", Except.ok (some 1, some 280, some 290))]) = [] := by
  exact ⟨by decide, by decide⟩

/-- C3 (amended): a failure of any single month's remote fetch aborts the
entire batch: the exception escapes the loop to the outer handler, the call
reports the fetch-failure message, and no month — not even one fetched
successfully — appears in the output.  (Only a month whose fetch succeeds
with a missing field is skipped individually.) -/
theorem month_fetch_error_aborts_batch (l : List (String × FetchRes)) (e : String)
    (h : firstError l = some e) :
    processMonths l = .error e ∧
    runPipeline l = .fetchError ("Failed to fetch data: " ++ e) ∧
    outputRows (runPipeline l) = [] := by
  have hp : processMonths l = .error e := by rw [processMonths_spec, h]
  have hr : runPipeline l = .fetchError ("Failed to fetch data: " ++ e) := by
    unfold runPipeline; rw [hp]
  exact ⟨hp, hr, by rw [hr]; rfl⟩

theorem month_fetch_error_aborts_batch_witness :
    processMonths [("2025-01", Except.error "boom"),
        ("2025-03", Except.ok (some 1, some 280, some 290))] = .error "boom" ∧
    runPipeline [("2025-01", Except.error "boom"),
        ("2025-03", Except.ok (some 1, some 280, some 290))] =
      .fetchError ("Failed to fetch data: " ++ "boom") ∧
    outputRows (runPipeline [("2025-01", Except.error "boom"),
        ("2025-03", Except.ok (some 1, some 280, some 290))]) = [] :=
  month_fetch_error_aborts_batch _ _ rfl

/-- C5: with no exception raised, a year-month of the batch contributes a
record to the rendered output if and only if all three reduced fields
(`pr_sum`, `tasmin_mean`, `tasmax_mean`) are present; a month with any
missing field is excluded entirely. -/
theorem record_iff_all_fields_present (l : List (String × FetchRes))
    (hnf : firstError l = none) (hnd : (l.map Prod.fst).Nodup)
    (ym : String) (a b c : Option ℚ)
    (hm : (ym, Except.ok (a, b, c)) ∈ l) :
    (∃ row ∈ outputRows (runPipeline l), row.date = ym) ↔
      (a.isSome ∧ b.isSome ∧ c.isSome) := by
  have hp : processMonths l = .ok (l.filterMap recOfPair) := by
    rw [processMonths_spec, hnf]
  rw [outputRows_of_ok hp]
  constructor
  · rintro ⟨row, hrow, hdate⟩
    obtain ⟨r, hr, rfl⟩ := List.mem_map.1 hrow
    obtain ⟨p, hpl, hpr⟩ := List.mem_filterMap.1 hr
    have hp1 : p.1 = ym := by
      have hd : r.date = p.1 := recOfPair_date hpr
      rw [← hd]; exact hdate
    have hpe : p = (ym, Except.ok (a, b, c)) := keys_inj hnd hpl hm hp1
    rw [hpe] at hpr
    cases a with
    | none => simp [recOfPair, recOf] at hpr
    | some pa =>
      cases b with
      | none => simp [recOfPair, recOf] at hpr
      | some tb =>
        cases c with
        | none => simp [recOfPair, recOf] at hpr
        | some tc => exact ⟨rfl, rfl, rfl⟩
  · rintro ⟨ha, hb, hc⟩
    obtain ⟨pa, rfl⟩ := Option.isSome_iff_exists.1 ha
    obtain ⟨tb, rfl⟩ := Option.isSome_iff_exists.1 hb
    obtain ⟨tc, rfl⟩ := Option.isSome_iff_exists.1 hc
    refine ⟨addRisks ⟨ym, pa * 86400, tb - 273.15, tc - 273.15⟩, ?_, rfl⟩
    exact List.mem_map_of_mem addRisks
      (List.mem_filterMap.2 ⟨(ym, .ok (some pa, some tb, some tc)), hm, rfl⟩)

theorem record_iff_all_fields_present_witness :
    (∃ row ∈ outputRows (runPipeline
        [("2025-01", Except.ok ((some 1 : Option ℚ), some 280, some 290))]),
      row.date = "2025-01") ↔
      ((some (1 : ℚ)).isSome ∧ (some (280 : ℚ)).isSome ∧ (some (290 : ℚ)).isSome) :=
  record_iff_all_fields_present
    [("2025-01", Except.ok ((some 1 : Option ℚ), some 280, some 290))]
    rfl (by decide) "2025-01" _ _ _ (List.mem_singleton.2 rfl)

/-- C8: when no iteration raises and the whole range yields zero usable
records, the pipeline reports the no-data message and renders nothing (no
charts, dataframe or CSV download: no success outcome). -/
theorem empty_result_no_data (l : List (String × FetchRes))
    (hnf : firstError l = none) (hempty : l.filterMap recOfPair = []) :
    runPipeline l = Outcome.noData ∧
    ∀ rows csv, runPipeline l ≠ Outcome.success rows csv := by
  have hp : processMonths l = .ok ([] : List MonthlyRec) := by
    rw [processMonths_spec, hnf, hempty]
  have hr : runPipeline l = .noData := by unfold runPipeline; rw [hp]
  refine ⟨hr, fun rows csv hcon => ?_⟩
  rw [hr] at hcon
  cases hcon

theorem empty_result_no_data_witness :
    runPipeline [("2025-01", Except.ok ((none : Option ℚ), some 280, some 290))] =
      Outcome.noData ∧
    ∀ rows csv,
      runPipeline [("2025-01", Except.ok ((none : Option ℚ), some 280, some 290))] ≠
        Outcome.success rows csv :=
  empty_result_no_data
    [("2025-01", Except.ok ((none : Option ℚ), some 280, some 290))] rfl rfl

/-- C6 (counterexample): the loop iterates the distinct year-months in the
order the remote aggregation returns them and no sort is applied: with the
keys arriving as 2025-02 then 2025-01 (both with complete data), the output
sequence is 2025-02 before 2025-01, which is not ascending. -/
theorem output_not_sorted_cex :
    ((outputRows (runPipeline [("2025-02", Except.ok (some 1, some 280, some 290)),
        ("2025-01", Except.ok (some 2, some 281, some 291))])).map MonthlyRow.date)
      = ["2025-02", "2025-01"] ∧
    ymBefore "2025-02" "2025-01" = false ∧ ymBefore "2025-01" "2025-02" = true := by
  refine ⟨by decide, by decide, by decide⟩

/-- C6 (amended): the output preserves the first-occurrence order of the
distinct year-month keys produced by the remote aggregation (no sort is
applied); in particular, whenever that key order is strictly ascending, the
output records are strictly ascending by year-month. -/
theorem output_preserves_key_order (l : List (String × FetchRes))
    (hsorted : (l.map Prod.fst).Pairwise (fun a b => ymBefore a b = true)) :
    (outputRows (runPipeline l)).Pairwise
      (fun r s => ymBefore r.date s.date = true) := by
  cases hfe : firstError l with
  | some e =>
    have hp : processMonths l = .error e := by rw [processMonths_spec, hfe]
    have hr : runPipeline l = .fetchError ("Failed to fetch data: " ++ e) := by
      unfold runPipeline; rw [hp]
    rw [hr]
    exact List.Pairwise.nil
  | none =>
    have hp : processMonths l = .ok (l.filterMap recOfPair) := by
      rw [processMonths_spec, hfe]
    rw [outputRows_of_ok hp]
    have hdates : ((l.filterMap recOfPair).map MonthlyRec.date).Pairwise
        (fun a b => ymBefore a b = true) :=
      hsorted.sublist (dates_sublist l)
    exact List.pairwise_map.2 (List.pairwise_map.1 hdates)

theorem output_preserves_key_order_witness :
    (outputRows (runPipeline
        [("2025-01", Except.ok ((some 1 : Option ℚ), some 280, some 290)),
         ("2025-03", Except.ok ((some 2 : Option ℚ), some 281, some 291))])).Pairwise
      (fun r s => ymBefore r.date s.date = true) :=
  output_preserves_key_order
    [("2025-01", Except.ok ((some 1 : Option ℚ), some 280, some 290)),
     ("2025-03", Except.ok ((some 2 : Option ℚ), some 281, some 291))] (by decide)

/-- C4: every invalid button click — no point selected, start not before end,
start before 2025-01-01, or end after 2100-12-31 — is rejected with a
user-facing validation message, and the outcome does not depend on the remote
service at all (no remote call is made). -/
theorem validation_rejects_before_fetch (pt : Option (ℚ × ℚ)) (sd ed : CDate)
    (h : pt = none ∨ ¬ dateLt sd ed ∨ dateLt sd ⟨2025, 1, 1⟩ ∨
      dateLt ⟨2100, 12, 31⟩ ed) :
    ∃ msg, ∀ fetches, fetchClimateData pt sd ed fetches = Outcome.validationError msg := by
  by_cases h1 : pt.isNone
  · exact ⟨_, fun fetches => by unfold fetchClimateData; rw [if_pos h1]⟩
  · by_cases h2 : dateLt sd ed
    · by_cases h3 : dateLt sd ⟨2025, 1, 1⟩
      · exact ⟨_, fun fetches => by
          unfold fetchClimateData
          rw [if_neg h1, if_neg (not_not_intro h2), if_pos h3]⟩
      · by_cases h4 : dateLt ⟨2100, 12, 31⟩ ed
        · exact ⟨_, fun fetches => by
            unfold fetchClimateData
            rw [if_neg h1, if_neg (not_not_intro h2), if_neg h3, if_pos h4]⟩
        · exfalso
          rcases h with h | h | h | h
          · rw [h] at h1; exact h1 rfl
          · exact h h2
          · exact h3 h
          · exact h4 h
    · exact ⟨_, fun fetches => by unfold fetchClimateData; rw [if_neg h1, if_pos h2]⟩

theorem validation_rejects_before_fetch_witness :
    ∃ msg, ∀ fetches,
      fetchClimateData none ⟨2025, 1, 1⟩ ⟨2024, 12, 31⟩ fetches =
        Outcome.validationError msg :=
  validation_rejects_before_fetch none ⟨2025, 1, 1⟩ ⟨2024, 12, 31⟩ (Or.inl rfl)

/-- C1 (counterexample): the claim's third example is wrong.  At
`precipitation_mm = 80` the flood lambda returns `'Moderate'` (80 > 50), not
`'Low'`; a record with precipitation 80 mm and max temperature 20 °C gets
flood_risk Moderate and drought_risk Low, not both Low. -/
theorem risk_example_80_cex :
    flood_risk 80 = Risk.Moderate ∧ flood_risk 80 ≠ Risk.Low ∧
    drought_risk 80 20 = Risk.Low ∧
    ((outputRows (runPipeline [("2025-06",
        Except.ok (some (80 / 86400 : ℚ), some 293.15, some 293.15))])).map
      (fun row => (row.precipitation_mm, row.max_temperature_c,
        row.flood_risk, row.drought_risk)))
      = [(80, 20, Risk.Moderate, Risk.Low)] := by
  have hval : ((80 : ℚ) / 86400) * 86400 = 80 := by norm_num
  have ht : (293.15 : ℚ) - 273.15 = 20 := by norm_num
  have hm80 : flood_risk 80 = Risk.Moderate := by norm_num [flood_risk]
  refine ⟨hm80, by rw [hm80]; exact fun hcon => Risk.noConfusion hcon,
    by norm_num [drought_risk], ?_⟩
  simp only [runPipeline, processMonths, recOf, outputRows, addRisks,
    List.map_cons, List.map_nil, hval, ht]
  norm_num [flood_risk, drought_risk]

/-- C1 (amended): every monthly record in the rendered output carries risk
labels that are pure functions of its precipitation and max temperature with
exactly the stated thresholds; `precipitation_mm = 120` gives flood_risk
High and `(20, 35)` gives drought_risk High, but `(80, 20)` gives flood_risk
Moderate (not Low as the claim's example says) and drought_risk Low. -/
theorem risk_labels_thresholds (l : List (String × FetchRes)) (row : MonthlyRow)
    (hrow : row ∈ outputRows (runPipeline l)) :
    (row.flood_risk = flood_risk row.precipitation_mm ∧
     row.drought_risk = drought_risk row.precipitation_mm row.max_temperature_c) ∧
    (row.precipitation_mm > 100 → row.flood_risk = Risk.High) ∧
    (¬ row.precipitation_mm > 100 → row.precipitation_mm > 50 →
      row.flood_risk = Risk.Moderate) ∧
    (¬ row.precipitation_mm > 50 → row.flood_risk = Risk.Low) ∧
    (row.precipitation_mm < 30 ∧ row.max_temperature_c > 30 →
      row.drought_risk = Risk.High) ∧
    (¬ (row.precipitation_mm < 30 ∧ row.max_temperature_c > 30) →
      row.precipitation_mm < 50 ∧ row.max_temperature_c > 25 →
      row.drought_risk = Risk.Moderate) ∧
    (¬ (row.precipitation_mm < 30 ∧ row.max_temperature_c > 30) →
      ¬ (row.precipitation_mm < 50 ∧ row.max_temperature_c > 25) →
      row.drought_risk = Risk.Low) ∧
    (flood_risk 120 = Risk.High ∧ drought_risk 20 35 = Risk.High ∧
     flood_risk 80 = Risk.Moderate ∧ drought_risk 80 20 = Risk.Low) := by
  have hex : ∃ r : MonthlyRec, row = addRisks r := by
    cases hp : processMonths l with
    | error e =>
      have hr : runPipeline l = .fetchError ("Failed to fetch data: " ++ e) := by
        unfold runPipeline; rw [hp]
      rw [hr] at hrow
      exact absurd hrow (by simp [outputRows])
    | ok rs =>
      cases rs with
      | nil =>
        have hr : runPipeline l = .noData := by unfold runPipeline; rw [hp]
        rw [hr] at hrow
        exact absurd hrow (by simp [outputRows])
      | cons r rest =>
        rw [outputRows_of_ok hp] at hrow
        obtain ⟨r0, _, hr0⟩ := List.mem_map.1 hrow
        exact ⟨r0, hr0.symm⟩
  obtain ⟨r, rfl⟩ := hex
  refine ⟨⟨rfl, rfl⟩, ?_, ?_, ?_, ?_, ?_, ?_,
    by norm_num [flood_risk], by norm_num [drought_risk],
    by norm_num [flood_risk], by norm_num [drought_risk]⟩
  · intro hp
    simp only [addRisks] at hp ⊢
    rw [flood_risk, if_pos hp]
  · intro hp hq
    simp only [addRisks] at hp hq ⊢
    rw [flood_risk, if_neg hp, if_pos hq]
  · intro hp
    simp only [addRisks] at hp ⊢
    have hp' : ¬ r.precipitation_mm > 100 := fun hc => hp (by linarith)
    rw [flood_risk, if_neg hp', if_neg hp]
  · intro hp
    simp only [addRisks] at hp ⊢
    rw [drought_risk, if_pos hp]
  · intro hp hq
    simp only [addRisks] at hp hq ⊢
    rw [drought_risk, if_neg hp, if_pos hq]
  · intro hp hq
    simp only [addRisks] at hp hq ⊢
    rw [drought_risk, if_neg hp, if_neg hq]

theorem risk_labels_thresholds_witness :
    ((addRisks ⟨"2025-01", 2 * 86400, 303.15 - 273.15, 313.15 - 273.15⟩).flood_risk =
        flood_risk (addRisks ⟨"2025-01", 2 * 86400, 303.15 - 273.15,
          313.15 - 273.15⟩).precipitation_mm ∧
      (addRisks ⟨"2025-01", 2 * 86400, 303.15 - 273.15, 313.15 - 273.15⟩).drought_risk =
        drought_risk (addRisks ⟨"2025-01", 2 * 86400, 303.15 - 273.15,
          313.15 - 273.15⟩).precipitation_mm
          (addRisks ⟨"2025-01", 2 * 86400, 303.15 - 273.15, 313.15 - 273.15⟩).max_temperature_c) ∧
    ((addRisks ⟨"2025-01", 2 * 86400, 303.15 - 273.15, 313.15 - 273.15⟩).precipitation_mm > 100 →
      (addRisks ⟨"2025-01", 2 * 86400, 303.15 - 273.15, 313.15 - 273.15⟩).flood_risk = Risk.High) ∧
    (¬ (addRisks ⟨"2025-01", 2 * 86400, 303.15 - 273.15, 313.15 - 273.15⟩).precipitation_mm > 100 →
      (addRisks ⟨"2025-01", 2 * 86400, 303.15 - 273.15, 313.15 - 273.15⟩).precipitation_mm > 50 →
      (addRisks ⟨"2025-01", 2 * 86400, 303.15 - 273.15, 313.15 - 273.15⟩).flood_risk = Risk.Moderate) ∧
    (¬ (addRisks ⟨"2025-01", 2 * 86400, 303.15 - 273.15, 313.15 - 273.15⟩).precipitation_mm > 50 →
      (addRisks ⟨"2025-01", 2 * 86400, 303.15 - 273.15, 313.15 - 273.15⟩).flood_risk = Risk.Low) ∧
    ((addRisks ⟨"2025-01", 2 * 86400, 303.15 - 273.15, 313.15 - 273.15⟩).precipitation_mm < 30 ∧
        (addRisks ⟨"2025-01", 2 * 86400, 303.15 - 273.15, 313.15 - 273.15⟩).max_temperature_c > 30 →
      (addRisks ⟨"2025-01", 2 * 86400, 303.15 - 273.15, 313.15 - 273.15⟩).drought_risk = Risk.High) ∧
    (¬ ((addRisks ⟨"2025-01", 2 * 86400, 303.15 - 273.15, 313.15 - 273.15⟩).precipitation_mm < 30 ∧
        (addRisks ⟨"2025-01", 2 * 86400, 303.15 - 273.15, 313.15 - 273.15⟩).max_temperature_c > 30) →
      (addRisks ⟨"2025-01", 2 * 86400, 303.15 - 273.15, 313.15 - 273.15⟩).precipitation_mm < 50 ∧
        (addRisks ⟨"2025-01", 2 * 86400, 303.15 - 273.15, 313.15 - 273.15⟩).max_temperature_c > 25 →
      (addRisks ⟨"2025-01", 2 * 86400, 303.15 - 273.15, 313.15 - 273.15⟩).drought_risk = Risk.Moderate) ∧
    (¬ ((addRisks ⟨"2025-01", 2 * 86400, 303.15 - 273.15, 313.15 - 273.15⟩).precipitation_mm < 30 ∧
        (addRisks ⟨"2025-01", 2 * 86400, 303.15 - 273.15, 313.15 - 273.15⟩).max_temperature_c > 30) →
      ¬ ((addRisks ⟨"2025-01", 2 * 86400, 303.15 - 273.15, 313.15 - 273.15⟩).precipitation_mm < 50 ∧
        (addRisks ⟨"2025-01", 2 * 86400, 303.15 - 273.15, 313.15 - 273.15⟩).max_temperature_c > 25) →
      (addRisks ⟨"2025-01", 2 * 86400, 303.15 - 273.15, 313.15 - 273.15⟩).drought_risk = Risk.Low) ∧
    (flood_risk 120 = Risk.High ∧ drought_risk 20 35 = Risk.High ∧
     flood_risk 80 = Risk.Moderate ∧ drought_risk 80 20 = Risk.Low) :=
  risk_labels_thresholds
    [("2025-01", Except.ok ((some 2 : Option ℚ), some 303.15, some 313.15))]
    (addRisks ⟨"2025-01", 2 * 86400, 303.15 - 273.15, 313.15 - 273.15⟩)
    (List.mem_singleton.2 rfl)

/-! ## Calendar lemmas for the month-end computation -/

theorem addDays_add (a b : Nat) (d : CDate) :
    addDays (a + b) d = addDays b (addDays a d) := by
  induction a generalizing d with
  | zero => rw [Nat.zero_add]; rfl
  | succ a ih =>
    rw [Nat.succ_add]
    show addDays (a + b) (nextDay d) = _
    rw [ih]; rfl

theorem daysInMonth_bounds (y m : Nat) :
    28 ≤ daysInMonth y m ∧ daysInMonth y m ≤ 31 := by
  unfold daysInMonth
  split_ifs <;> omega

theorem addDays_within (k : Nat) : ∀ y m d : Nat, d + k ≤ daysInMonth y m →
    addDays k ⟨y, m, d⟩ = ⟨y, m, d + k⟩ := by
  induction k with
  | zero => intro y m d _; rfl
  | succ n ih =>
    intro y m d h
    show addDays n (nextDay ⟨y, m, d⟩) = _
    have hd : d < daysInMonth y m := by omega
    have hnd : nextDay ⟨y, m, d⟩ = ⟨y, m, d + 1⟩ := by
      simp only [nextDay]
      rw [if_pos hd]
    rw [hnd, ih y m (d + 1) (by omega)]
    have he : d + 1 + n = d + (n + 1) := by omega
    rw [he]

theorem nextDay_last (y m : Nat) (h : m < 12) :
    nextDay ⟨y, m, daysInMonth y m⟩ = ⟨y, m + 1, 1⟩ := by
  simp only [nextDay]
  rw [if_neg (lt_irrefl _), if_pos h]

/-- C9: for every month of a year-month string, the code's month-end
computation — add 31 days to the first of the month, replace the day with 1,
subtract one day — lands on the last calendar day of that month (for all
month lengths 28, 29, 30, 31, February of leap years included), and adding
one more day (the exclusive upper bound of the `filterDate` re-filter) gives
exactly the first day of the following month, so the filter covers exactly
the calendar month. -/
theorem month_end_is_last_day (y m : Nat) (h1 : 1 ≤ m) (h2 : m ≤ 12) :
    monthEndDate y m = ⟨y, m, daysInMonth y m⟩ ∧
    addDays 1 (monthEndDate y m) =
      (if m = 12 then ⟨y + 1, 1, 1⟩ else ⟨y, m + 1, 1⟩) := by
  obtain ⟨hl, hu⟩ := daysInMonth_bounds y m
  by_cases hm : m = 12
  · subst hm
    have hd : daysInMonth y 12 = 31 := rfl
    have h31 : addDays 31 ⟨y, 12, 1⟩ = ⟨y + 1, 1, 1⟩ := by
      have e : (31 : Nat) = 30 + 1 := rfl
      rw [e, addDays_add, addDays_within 30 y 12 1 (by omega)]
      show nextDay ⟨y, 12, 1 + 30⟩ = _
      simp [nextDay, hd]
    have hfst : monthEndDate y 12 = ⟨y, 12, daysInMonth y 12⟩ := by
      show prevDay ⟨(addDays 31 ⟨y, 12, 1⟩).year, (addDays 31 ⟨y, 12, 1⟩).month, 1⟩ = _
      rw [h31]
      simp [prevDay, hd]
    refine ⟨hfst, ?_⟩
    rw [hfst, if_pos rfl]
    show nextDay ⟨y, 12, daysInMonth y 12⟩ = _
    simp [nextDay, hd]
  · have hmlt : m < 12 := by omega
    have e31 : (31 : Nat) = (daysInMonth y m - 1) + (1 + (31 - daysInMonth y m)) := by
      omega
    have hnext : addDays 1 ⟨y, m, daysInMonth y m⟩ = ⟨y, m + 1, 1⟩ := by
      show nextDay ⟨y, m, daysInMonth y m⟩ = _
      exact nextDay_last y m hmlt
    have hstep : addDays 31 ⟨y, m, 1⟩ = ⟨y, m + 1, 1 + (31 - daysInMonth y m)⟩ := by
      nth_rewrite 1 [e31]
      rw [addDays_add, addDays_within (daysInMonth y m - 1) y m 1 (by omega)]
      have hday : 1 + (daysInMonth y m - 1) = daysInMonth y m := by omega
      rw [hday, addDays_add 1 (31 - daysInMonth y m), hnext]
      refine addDays_within (31 - daysInMonth y m) y (m + 1) 1 ?_
      obtain ⟨hl2, _⟩ := daysInMonth_bounds y (m + 1)
      omega
    have hfst : monthEndDate y m = ⟨y, m, daysInMonth y m⟩ := by
      show prevDay ⟨(addDays 31 ⟨y, m, 1⟩).year, (addDays 31 ⟨y, m, 1⟩).month, 1⟩ = _
      rw [hstep]
      simp only [prevDay]
      rw [if_neg (lt_irrefl _), if_pos (by omega : 1 < m + 1)]
      simp
    refine ⟨hfst, ?_⟩
    rw [hfst, if_neg hm]
    exact hnext

theorem month_end_is_last_day_witness :
    monthEndDate 2025 2 = ⟨2025, 2, daysInMonth 2025 2⟩ ∧
    addDays 1 (monthEndDate 2025 2) =
      (if 2 = 12 then ⟨2025 + 1, 1, 1⟩ else ⟨2025, 2 + 1, 1⟩) :=
  month_end_is_last_day 2025 2 (by omega) (by omega)

/-! ## Digit rendering and splitting lemmas -/

theorem charToDigit_digitToChar : ∀ d, d < 10 → charToDigit (digitToChar d) = d := by
  decide

theorem digitToChar_ne : ∀ d, d < 10 →
    digitToChar d ≠ '-' ∧ digitToChar d ≠ ',' ∧
    digitToChar d ≠ '\n' ∧ digitToChar d ≠ '/' := by
  decide

theorem natDigitsAux_chars (f : Nat) : ∀ n c, c ∈ natDigitsAux f n →
    ∃ d, d < 10 ∧ c = digitToChar d := by
  induction f with
  | zero =>
    intro n c hc
    cases n with
    | zero => simp [natDigitsAux] at hc
    | succ k => simp [natDigitsAux] at hc
  | succ g ih =>
    intro n c hc
    cases n with
    | zero => simp [natDigitsAux] at hc
    | succ k =>
      simp only [natDigitsAux, List.mem_cons] at hc
      rcases hc with rfl | hmem
      · exact ⟨(k + 1) % 10, Nat.mod_lt _ (by omega), rfl⟩
      · exact ih _ _ hmem

theorem renderNat_chars (n : Nat) : ∀ c ∈ renderNat n,
    ∃ d, d < 10 ∧ c = digitToChar d := by
  intro c hc
  unfold renderNat at hc
  by_cases h : n = 0
  · rw [if_pos h] at hc
    simp at hc
    exact ⟨0, by omega, by rw [hc]; decide⟩
  · rw [if_neg h, List.mem_reverse] at hc
    exact natDigitsAux_chars n n c hc

theorem natDigitsAux_val : ∀ f n, n ≤ f →
    (natDigitsAux f n).foldr (fun c acc => acc * 10 + charToDigit c) 0 = n := by
  intro f
  induction f with
  | zero =>
    intro n h
    have h0 : n = 0 := by omega
    subst h0
    rfl
  | succ g ih =>
    intro n h
    cases n with
    | zero => rfl
    | succ k =>
      show (digitToChar ((k + 1) % 10) ::
        natDigitsAux g ((k + 1) / 10)).foldr (fun c acc => acc * 10 + charToDigit c) 0 = k + 1
      rw [List.foldr_cons]
      have hdiv : (k + 1) / 10 < k + 1 := Nat.div_lt_self (Nat.succ_pos k) (by omega)
      rw [ih ((k + 1) / 10) (by omega),
        charToDigit_digitToChar _ (Nat.mod_lt _ (by omega))]
      omega

theorem parseNat_renderNat (n : Nat) : parseNatChars (renderNat n) = n := by
  unfold renderNat
  by_cases h : n = 0
  · rw [if_pos h, h]; rfl
  · rw [if_neg h]
    unfold parseNatChars
    rw [List.foldl_reverse]
    exact natDigitsAux_val n n le_rfl

theorem parseNat_zeros (j : Nat) (cs : List Char) :
    parseNatChars (List.replicate j '0' ++ cs) = parseNatChars cs := by
  have h0 : (List.replicate j '0').foldl (fun acc c => acc * 10 + charToDigit c) 0 = 0 := by
    induction j with
    | zero => rfl
    | succ i ih => rw [List.replicate_succ, List.foldl_cons]; exact ih
  unfold parseNatChars
  rw [List.foldl_append, h0]

theorem parseNat_padTo (k n : Nat) : parseNatChars (padTo k (renderNat n)) = n := by
  unfold padTo
  rw [parseNat_zeros, parseNat_renderNat]

theorem padTo_renderNat_chars (k n : Nat) : ∀ c ∈ padTo k (renderNat n),
    ∃ d, d < 10 ∧ c = digitToChar d := by
  intro c hc
  unfold padTo at hc
  rw [List.mem_append] at hc
  rcases hc with hc | hc
  · rw [List.mem_replicate] at hc
    exact ⟨0, by omega, by rw [hc.2]; decide⟩
  · exact renderNat_chars n c hc

theorem splitCells_sepFree (sep : Char) (cs : List Char) (h : ∀ c ∈ cs, c ≠ sep) :
    splitCells sep cs = [cs] := by
  induction cs with
  | nil => rfl
  | cons c rest ih =>
    have hc : c ≠ sep := h c (List.mem_cons_self c rest)
    simp only [splitCells]
    rw [if_neg hc, ih (fun x hx => h x (List.mem_cons_of_mem c hx))]

theorem splitCells_append (sep : Char) (p rest : List Char)
    (hp : ∀ c ∈ p, c ≠ sep) :
    splitCells sep (p ++ sep :: rest) = p :: splitCells sep rest := by
  induction p with
  | nil =>
    show splitCells sep (sep :: rest) = [] :: splitCells sep rest
    simp [splitCells]
  | cons c p' ih =>
    have hc : c ≠ sep := hp c (List.mem_cons_self c p')
    show splitCells sep (c :: (p' ++ sep :: rest)) = _
    simp only [splitCells]
    rw [if_neg hc, ih (fun x hx => hp x (List.mem_cons_of_mem c hx))]

theorem splitCells_joinCells (sep : Char) : ∀ ps : List (List Char), ps ≠ [] →
    (∀ p ∈ ps, ∀ c ∈ p, c ≠ sep) → splitCells sep (joinCells sep ps) = ps := by
  intro ps
  induction ps with
  | nil => intro h; exact absurd rfl h
  | cons p qs ih =>
    intro _ h
    cases qs with
    | nil =>
      show splitCells sep (joinCells sep [p]) = [p]
      exact splitCells_sepFree sep p (h p (List.mem_cons_self _ _))
    | cons q ps' =>
      show splitCells sep (p ++ sep :: joinCells sep (q :: ps')) = _
      rw [splitCells_append sep p _ (h p (List.mem_cons_self _ _)),
        ih (by simp) (fun x hx c hc => h x (List.mem_cons_of_mem p hx) c hc)]

theorem parseYM_renderYM (y m : Nat) (h1 : 1 ≤ m) (h2 : m ≤ 12) :
    parseYM (renderYM y m) = some (y, m) := by
  have hy : ∀ c ∈ padTo 4 (renderNat y), c ≠ '-' := by
    intro c hc
    obtain ⟨d, hd, rfl⟩ := padTo_renderNat_chars 4 y c hc
    exact (digitToChar_ne d hd).1
  have hm : ∀ c ∈ padTo 2 (renderNat m), c ≠ '-' := by
    intro c hc
    obtain ⟨d, hd, rfl⟩ := padTo_renderNat_chars 2 m c hc
    exact (digitToChar_ne d hd).1
  have hsplit : splitCells '-' (padTo 4 (renderNat y) ++ '-' :: padTo 2 (renderNat m))
      = [padTo 4 (renderNat y), padTo 2 (renderNat m)] := by
    rw [splitCells_append '-' _ _ hy, splitCells_sepFree '-' _ hm]
  simp only [parseYM, renderYM]
  rw [hsplit]
  simp only [parseNat_padTo]
  rw [if_pos ⟨h1, h2⟩]

/-! ## The image-collection layer: C2 and C10 -/

/-- C10: the band conversions `aggregate_monthly` stores as image properties
are never read downstream — the mapped collection is only used for its
`year_month` values, and the per-month statistics are recomputed from the
original filtered collection.  Replacing `aggregate_monthly` by a function
setting only `year_month` yields an identical outcome (same records, charts,
dataframe rows and CSV), so each unit conversion affecting the output is
applied exactly once, in the loop. -/
theorem aggregate_monthly_props_unused (imgs : List EEImage) :
    pipelineFromImages aggregate_monthly imgs =
      pipelineFromImages aggregateYearMonthOnly imgs := by
  unfold pipelineFromImages discoverMonths
  have h : (imgs.map aggregate_monthly).filterMap EEImage.year_month
      = (imgs.map aggregateYearMonthOnly).filterMap EEImage.year_month := by
    induction imgs with
    | nil => rfl
    | cons im rest ih =>
      simp only [List.map_cons, List.filterMap_cons, aggregate_monthly,
        aggregateYearMonthOnly]
      rw [ih]
  rw [h]

/-- C2: for a year-month whose re-filtered collection is nonempty, the fetch
returns exactly the time-summed precipitation rate and time-averaged Kelvin
temperatures reduced at the point, and the loop converts them exactly once:
`precipitation_mm = pr_sum * 86400`, `t_c = t_mean - 273.15`. -/
theorem monthly_values_from_sum_mean (imgs : List EEImage) (y m : Nat)
    (h1 : 1 ≤ m) (h2 : m ≤ 12) (ms : List EEImage)
    (hms : ms = imgs.filter (fun im =>
      inMonthRange ⟨y, m, 1⟩ (addDays 1 (monthEndDate y m)) im.date))
    (hne : ms ≠ []) :
    fetchMonth imgs (renderYM y m) =
      .ok (some ((ms.map EEImage.pr).sum),
           some ((ms.map EEImage.tasmin).sum / (ms.length : ℚ)),
           some ((ms.map EEImage.tasmax).sum / (ms.length : ℚ))) ∧
    processMonths [(renderYM y m, fetchMonth imgs (renderYM y m))] =
      .ok [{ date := renderYM y m
             precipitation_mm := (ms.map EEImage.pr).sum * 86400
             min_temperature_c := (ms.map EEImage.tasmin).sum / (ms.length : ℚ) - 273.15
             max_temperature_c := (ms.map EEImage.tasmax).sum / (ms.length : ℚ) - 273.15 }] := by
  have hlen : ms.length ≠ 0 := fun hc => hne (List.length_eq_zero.1 hc)
  have hfm : fetchMonth imgs (renderYM y m) =
      .ok (some ((ms.map EEImage.pr).sum),
           some ((ms.map EEImage.tasmin).sum / (ms.length : ℚ)),
           some ((ms.map EEImage.tasmax).sum / (ms.length : ℚ))) := by
    simp only [fetchMonth, parseYM_renderYM y m h1 h2]
    rw [← hms, if_neg hlen]
  refine ⟨hfm, ?_⟩
  simp only [processMonths, hfm, recOf]

/-! ## CSV round-trip lemmas -/

theorem parseIntChars_digits (cs : List Char) (h : ∀ c ∈ cs, c ≠ '-') :
    parseIntChars cs = (parseNatChars cs : Int) := by
  cases cs with
  | nil => rfl
  | cons c rest =>
    simp only [parseIntChars]
    rw [if_neg (h c (List.mem_cons_self c rest))]

theorem parseInt_renderInt (i : Int) : parseIntChars (renderInt i) = i := by
  unfold renderInt
  by_cases h : i < 0
  · rw [if_pos h]
    simp only [parseIntChars]
    rw [if_pos trivial, parseNat_renderNat]
    omega
  · rw [if_neg h]
    rw [parseIntChars_digits _ (fun c hc => by
      obtain ⟨d, hd, rfl⟩ := renderNat_chars _ c hc
      exact (digitToChar_ne d hd).1)]
    rw [parseNat_renderNat]
    omega

theorem renderInt_chars (i : Int) : ∀ c ∈ renderInt i,
    c = '-' ∨ ∃ d, d < 10 ∧ c = digitToChar d := by
  intro c hc
  unfold renderInt at hc
  by_cases h : i < 0
  · rw [if_pos h] at hc
    rcases List.mem_cons.1 hc with rfl | hm
    · exact Or.inl rfl
    · exact Or.inr (renderNat_chars _ c hm)
  · rw [if_neg h] at hc
    exact Or.inr (renderNat_chars _ c hc)

theorem renderQ_chars (q : ℚ) : ∀ c ∈ renderQ q,
    c = '-' ∨ c = '/' ∨ ∃ d, d < 10 ∧ c = digitToChar d := by
  intro c hc
  unfold renderQ at hc
  rw [List.mem_append] at hc
  rcases hc with hc | hc
  · rcases renderInt_chars q.num c hc with h | h
    exacts [Or.inl h, Or.inr (Or.inr h)]
  · rcases List.mem_cons.1 hc with rfl | hm
    · exact Or.inr (Or.inl rfl)
    · exact Or.inr (Or.inr (renderNat_chars _ c hm))

theorem parseQ_renderQ (q : ℚ) : parseQChars (renderQ q) = some q := by
  unfold parseQChars renderQ
  have h1 : ∀ c ∈ renderInt q.num, c ≠ '/' := by
    intro c hc
    rcases renderInt_chars q.num c hc with rfl | ⟨d, hd, rfl⟩
    · decide
    · exact (digitToChar_ne d hd).2.2.2
  have h2 : ∀ c ∈ renderNat q.den, c ≠ '/' := by
    intro c hc
    obtain ⟨d, hd, rfl⟩ := renderNat_chars _ c hc
    exact (digitToChar_ne d hd).2.2.2
  have hs : splitCells '/' (renderInt q.num ++ '/' :: renderNat q.den)
      = [renderInt q.num, renderNat q.den] := by
    rw [splitCells_append '/' _ _ h1, splitCells_sepFree '/' _ h2]
  rw [hs]
  simp only [parseInt_renderInt, parseNat_renderNat]
  rw [Rat.mkRat_self]

theorem parseRisk_str (rk : Risk) : parseRisk (Risk.str rk).data = some rk := by
  cases rk <;> rfl

theorem parseDateCell_dateCell (ym : String) : parseDateCell (dateCell ym) = some ym := by
  unfold parseDateCell dateCell
  have he : (ym.data ++ ['-', '0', '1']).length - 3 = ym.data.length := by simp
  rw [he]
  rw [if_pos ⟨List.drop_left ym.data ['-', '0', '1'], by simp⟩]
  rw [List.take_left]

theorem ymOk_spec {s : String} (h : ymOk s = true) :
    ∀ c ∈ s.data, c ≠ ',' ∧ c ≠ '\n' := by
  intro c hc
  unfold ymOk at h
  rw [List.all_eq_true] at h
  have hcp := h c hc
  simp only [Bool.and_eq_true, bne_iff_ne] at hcp
  exact hcp

theorem riskStr_chars : ∀ rk : Risk, ∀ c ∈ (Risk.str rk).data, c ≠ ',' ∧ c ≠ '\n' := by
  intro rk
  cases rk <;> decide

theorem dateCell_chars (ym : String) (h : ymOk ym = true) :
    ∀ c ∈ dateCell ym, c ≠ ',' ∧ c ≠ '\n' := by
  intro c hc
  unfold dateCell at hc
  rw [List.mem_append] at hc
  rcases hc with hc | hc
  · exact ymOk_spec h c hc
  · simp only [List.mem_cons, List.not_mem_nil, or_false] at hc
    rcases hc with rfl | rfl | rfl
    · exact ⟨by decide, by decide⟩
    · exact ⟨by decide, by decide⟩
    · exact ⟨by decide, by decide⟩

theorem renderQ_sep_chars (q : ℚ) : ∀ c ∈ renderQ q, c ≠ ',' ∧ c ≠ '\n' := by
  intro c hc
  rcases renderQ_chars q c hc with rfl | rfl | ⟨d, hd, rfl⟩
  · exact ⟨by decide, by decide⟩
  · exact ⟨by decide, by decide⟩
  · exact ⟨(digitToChar_ne d hd).2.1, (digitToChar_ne d hd).2.2.1⟩

theorem rowCells_chars (r : MonthlyRow) (h : ymOk r.date = true) :
    ∀ cell ∈ rowCells r, ∀ c ∈ cell, c ≠ ',' ∧ c ≠ '\n' := by
  intro cell hcell
  simp only [rowCells, List.mem_cons, List.not_mem_nil, or_false] at hcell
  rcases hcell with rfl | rfl | rfl | rfl | rfl | rfl
  · exact dateCell_chars r.date h
  · exact renderQ_sep_chars _
  · exact renderQ_sep_chars _
  · exact renderQ_sep_chars _
  · exact riskStr_chars _
  · exact riskStr_chars _

theorem joinCells_chars (sep : Char) : ∀ (ps : List (List Char)) (c : Char),
    c ∈ joinCells sep ps → c = sep ∨ ∃ p ∈ ps, c ∈ p := by
  intro ps
  induction ps with
  | nil => intro c hc; simp [joinCells] at hc
  | cons p qs ih =>
    intro c hc
    cases qs with
    | nil => exact Or.inr ⟨p, by simp, hc⟩
    | cons q ps' =>
      have hc2 : c ∈ p ++ sep :: joinCells sep (q :: ps') := hc
      rcases List.mem_append.1 hc2 with hm | hm
      · exact Or.inr ⟨p, by simp, hm⟩
      · rcases List.mem_cons.1 hm with rfl | hm
        · exact Or.inl rfl
        · rcases ih c hm with hs | ⟨x, hx, hcx⟩
          · exact Or.inl hs
          · exact Or.inr ⟨x, List.mem_cons_of_mem p hx, hcx⟩

theorem headerCells_chars : ∀ c ∈ headerCells, c ≠ '\n' := by decide

theorem parseRow_roundtrip (r : MonthlyRow) (h : ymOk r.date = true) :
    parseRowChars (joinCells ',' (rowCells r)) = some r := by
  unfold parseRowChars
  rw [splitCells_joinCells ',' (rowCells r) (by simp [rowCells])
    (fun p hp c hc => ((rowCells_chars r h) p hp c hc).1)]
  simp only [rowCells, parseDateCell_dateCell, parseQ_renderQ, parseRisk_str]

theorem csvLines_chars (rows : List MonthlyRow) (h : ∀ r ∈ rows, ymOk r.date = true) :
    ∀ line ∈ (headerCells :: rows.map (fun r => joinCells ',' (rowCells r))) ++ [[]],
      ∀ c ∈ line, c ≠ '\n' := by
  intro line hl c hc
  rcases List.mem_append.1 hl with hl | hl
  · rcases List.mem_cons.1 hl with rfl | hl
    · exact headerCells_chars c hc
    · obtain ⟨r, hr, rfl⟩ := List.mem_map.1 hl
      rcases joinCells_chars ',' _ c hc with rfl | ⟨cell, hcell, hc2⟩
      · decide
      · exact ((rowCells_chars r (h r hr)) cell hcell c hc2).2
  · simp only [List.mem_singleton] at hl
    subst hl
    simp at hc

theorem csvSplit (rows : List MonthlyRow) (h : ∀ r ∈ rows, ymOk r.date = true) :
    splitCells '\n' (toCsvStr rows).data =
      (headerCells :: rows.map (fun r => joinCells ',' (rowCells r))) ++ [[]] := by
  show splitCells '\n' (toCsvChars rows) = _
  unfold toCsvChars
  exact splitCells_joinCells '\n' _ (by simp) (csvLines_chars rows h)

theorem mapM_rows (rows : List MonthlyRow) (h : ∀ r ∈ rows, ymOk r.date = true) :
    (rows.map (fun r => joinCells ',' (rowCells r))).mapM parseRowChars = some rows := by
  induction rows with
  | nil => rfl
  | cons r rest ih =>
    rw [List.map_cons, List.mapM_cons]
    rw [parseRow_roundtrip r (h r (List.mem_cons_self r rest)),
      ih (fun x hx => h x (List.mem_cons_of_mem r hx))]
    rfl

/-- C7: the generated CSV starts with the fixed header
`date,precipitation_mm,min_temperature_c,max_temperature_c,flood_risk,drought_risk`,
has exactly one line per record (plus the header line and the trailing
newline), each date cell being the first-of-month ISO date of the record's
year-month, and parsing it back reproduces the records field for field. -/
theorem csv_round_trip (rows : List MonthlyRow) (h : ∀ r ∈ rows, ymOk r.date = true) :
    (splitCells '\n' (toCsvStr rows).data).head? = some headerCells ∧
    (splitCells '\n' (toCsvStr rows).data).length = rows.length + 2 ∧
    parseCsvStr (toCsvStr rows) = some rows := by
  have hsplit := csvSplit rows h
  refine ⟨by rw [hsplit]; rfl, by rw [hsplit]; simp, ?_⟩
  show parseCsvChars (toCsvStr rows).data = some rows
  unfold parseCsvChars
  rw [hsplit]
  rw [List.getLast?_concat, if_pos rfl, List.dropLast_concat]
  show (if headerCells = headerCells then
      List.mapM parseRowChars (rows.map (fun r => joinCells ',' (rowCells r)))
    else none) = some rows
  rw [if_pos rfl]
  exact mapM_rows rows h

set_option maxRecDepth 100000 in
theorem csv_round_trip_witness :
    (splitCells '\n' (toCsvStr [⟨"2025-01", 120, 10, 20, Risk.High, Risk.Low⟩]).data).head?
      = some headerCells ∧
    (splitCells '\n' (toCsvStr [⟨"2025-01", 120, 10, 20, Risk.High, Risk.Low⟩]).data).length
      = ([⟨"2025-01", 120, 10, 20, Risk.High, Risk.Low⟩] : List MonthlyRow).length + 2 ∧
    parseCsvStr (toCsvStr [⟨"2025-01", 120, 10, 20, Risk.High, Risk.Low⟩])
      = some [⟨"2025-01", 120, 10, 20, Risk.High, Risk.Low⟩] :=
  csv_round_trip [⟨"2025-01", 120, 10, 20, Risk.High, Risk.Low⟩] (by decide)

set_option maxRecDepth 100000 in
theorem monthly_values_from_sum_mean_witness :
    fetchMonth [⟨⟨2025, 1, 15⟩, 1, 280, 290, none, none, none, none⟩]
        (renderYM 2025 1) =
      .ok (some ((([⟨⟨2025, 1, 15⟩, 1, 280, 290, none, none, none, none⟩] :
              List EEImage).map EEImage.pr).sum),
           some ((([⟨⟨2025, 1, 15⟩, 1, 280, 290, none, none, none, none⟩] :
              List EEImage).map EEImage.tasmin).sum /
             ((([⟨⟨2025, 1, 15⟩, 1, 280, 290, none, none, none, none⟩] :
              List EEImage).length : Nat) : ℚ)),
           some ((([⟨⟨2025, 1, 15⟩, 1, 280, 290, none, none, none, none⟩] :
              List EEImage).map EEImage.tasmax).sum /
             ((([⟨⟨2025, 1, 15⟩, 1, 280, 290, none, none, none, none⟩] :
              List EEImage).length : Nat) : ℚ))) ∧
    processMonths [(renderYM 2025 1,
        fetchMonth [⟨⟨2025, 1, 15⟩, 1, 280, 290, none, none, none, none⟩]
          (renderYM 2025 1))] =
      .ok [{ date := renderYM 2025 1
             precipitation_mm :=
               (([⟨⟨2025, 1, 15⟩, 1, 280, 290, none, none, none, none⟩] :
                 List EEImage).map EEImage.pr).sum * 86400
             min_temperature_c :=
               (([⟨⟨2025, 1, 15⟩, 1, 280, 290, none, none, none, none⟩] :
                 List EEImage).map EEImage.tasmin).sum /
               ((([⟨⟨2025, 1, 15⟩, 1, 280, 290, none, none, none, none⟩] :
                 List EEImage).length : Nat) : ℚ) - 273.15
             max_temperature_c :=
               (([⟨⟨2025, 1, 15⟩, 1, 280, 290, none, none, none, none⟩] :
                 List EEImage).map EEImage.tasmax).sum /
               ((([⟨⟨2025, 1, 15⟩, 1, 280, 290, none, none, none, none⟩] :
                 List EEImage).length : Nat) : ℚ) - 273.15 }] :=
  monthly_values_from_sum_mean
    [⟨⟨2025, 1, 15⟩, 1, 280, 290, none, none, none, none⟩] 2025 1
    (by omega) (by omega)
    [⟨⟨2025, 1, 15⟩, 1, 280, 290, none, none, none, none⟩]
    (by decide) (by simp)

end PredictedSam
